import Mathlib

/-!
# Solid colour contents (`impeller/entity/contents/solid_color_contents.cc`)

A shallow embedding of `SolidColorContents`: the stored state (colour, path,
cover flag), the setters, the coverage query, the visibility predicate, the
fill geometry builder and `Render`.

The translation unit uses many collaborators that are declared elsewhere
(`Path`, `PathBuilder`, `Tessellator`, `Matrix`, `ContentContext`,
`RenderPass`, `HostBuffer`, the base class `Contents`).  Their carrier types
are collected in `Sig` and their operations in `Externals`; every definition
that embeds a function of the source takes them as arguments, so every theorem
holds for all implementations of the collaborators.

Scalars are the engine's `float`; they are read as exact rationals.
-/

namespace impeller

/-! ## Plain data -/

/-- The engine's `Scalar` (a C++ `float`), read as an exact rational. -/
abbrev Scalar := ℚ

/-- A 2D point, `impeller::Point`. -/
structure Point where
  x : Scalar
  y : Scalar
  deriving DecidableEq

/-- A floating point extent, `impeller::Size`. -/
structure Size where
  width : Scalar
  height : Scalar
  deriving DecidableEq

/-- An integral extent, `impeller::ISize` (the render target size). -/
structure ISize where
  width : Int
  height : Int
  deriving DecidableEq

/-- An axis aligned rectangle, `impeller::Rect`: origin and size. -/
structure Rect where
  origin : Point
  size : Size
  deriving DecidableEq

/-- An RGBA colour, `impeller::Color`. -/
structure Color where
  red : Scalar
  green : Scalar
  blue : Scalar
  alpha : Scalar
  deriving DecidableEq

/-- Modelled from the spec: `Color::IsTransparent` is declared in
`impeller/geometry/color.h`; the spec calls it the transparency test that holds
for a fully transparent colour, that is one whose alpha is zero. -/
def Color.IsTransparent (c : Color) : Bool :=
  c.alpha == 0

/-- Modelled from the spec: `Color::Premultiply` is declared in
`impeller/geometry/color.h`; the spec gives it as the premultiplication
transform `RGB *= A`. -/
def Color.Premultiply (c : Color) : Color :=
  { red := c.red * c.alpha, green := c.green * c.alpha,
    blue := c.blue * c.alpha, alpha := c.alpha }

/-- The conversion `Size(ISize)` used in `Size(pass.GetRenderTargetSize())`. -/
def Size.ofISize (s : ISize) : Size :=
  { width := (s.width : Scalar), height := (s.height : Scalar) }

/-- Modelled from the spec: the implicit conversion `Rect(Size)` that
`AddRect(Size(...))` goes through; the spec describes the outcome as the
rectangle spanning (0,0) to the given size. -/
def Rect.ofSize (s : Size) : Rect :=
  { origin := { x := 0, y := 0 }, size := s }

/-- The path fill rule, `impeller::FillType`. -/
inductive FillType where
  | kNonZero
  | kOdd
  | kPositive
  | kNegative
  | kAbsGeqTwo
  deriving DecidableEq

/-- Modelled from the spec: the tessellator result; the source only names
`Tessellator::Result::kSuccess`, the spec lists the outcomes as
success and failure. -/
inductive TessellatorResult where
  | kSuccess
  | kFailure
  deriving DecidableEq

/-- The primitive topology of a command, `impeller::PrimitiveType`. -/
inductive PrimitiveType where
  | kTriangle
  | kTriangleStrip
  | kLine
  | kLineStrip
  | kPoint
  deriving DecidableEq

/-! ## Collaborator carrier types -/

/-- Carrier types of the collaborators whose representation is declared
outside this translation unit. -/
structure Sig where
  /-- The type `impeller::Path` -/
  Path : Type
  /-- The type `impeller::Matrix` -/
  Matrix : Type
  /-- The type `impeller::Path::Polyline` -/
  Polyline : Type
  /-- The pipeline handle returned by `GetSolidFillPipeline` -/
  Pipeline : Type
  /-- The type `ContentContextOptions` -/
  Options : Type

/-- The externally supplied per-draw context, `impeller::Entity`: the
accessors `GetTransformation` and `GetStencilDepth` read these fields. -/
structure Entity (σ : Sig) where
  transformation : σ.Matrix
  stencil_depth : Nat

/-- The state of a `SolidColorContents`: `color_`, `path_`, `cover_`. -/
structure SolidColorContents (σ : Sig) where
  color : Color
  path : σ.Path
  cover : Bool

/-! ## Transient buffers, vertex buffers, commands, passes -/

/-- The per-vertex data of the solid fill vertex shader,
`SolidFillPipeline::VertexShader::PerVertexData`: the vertex position
(the callback appends `{point}`). -/
structure PerVertexData where
  vertices : Point
  deriving DecidableEq

/-- The vertex stage uniform `VS::VertInfo`. -/
structure VertInfo (σ : Sig) where
  mvp : σ.Matrix

/-- The fragment stage uniform `FS::FragInfo`. -/
structure FragInfo where
  color : Color
  deriving DecidableEq

/-- One allocation made in a `HostBuffer`. -/
inductive Emplaced (σ : Sig) where
  | vertex_data (vs : List PerVertexData)
  | vert_info (v : VertInfo σ)
  | frag_info (f : FragInfo)

/-- Modelled from the spec: the scratch allocator `HostBuffer` is declared
elsewhere; the spec gives it as an arena with
`EmplaceUniform<T>(value) -> uniform handle`.  The arena is the list of the
allocations made so far. -/
structure HostBuffer (σ : Sig) where
  contents : List (Emplaced σ)

/-- A handle into a `HostBuffer`: the position of an allocation, or the
default constructed (null) view. -/
inductive BufferView where
  | null
  | slot (i : Nat)
  deriving DecidableEq

/-- Allocate `e` at the end of the arena and return the handle to it. -/
def HostBuffer.Emplace {σ : Sig} (buffer : HostBuffer σ) (e : Emplaced σ) :
    BufferView × HostBuffer σ :=
  (BufferView.slot buffer.contents.length, { contents := buffer.contents ++ [e] })

/-- The call `EmplaceUniform(vert_info)`. -/
def HostBuffer.EmplaceVertInfo {σ : Sig} (buffer : HostBuffer σ) (v : VertInfo σ) :
    BufferView × HostBuffer σ :=
  buffer.Emplace (Emplaced.vert_info v)

/-- The call `EmplaceUniform(frag_info)`. -/
def HostBuffer.EmplaceFragInfo {σ : Sig} (buffer : HostBuffer σ) (f : FragInfo) :
    BufferView × HostBuffer σ :=
  buffer.Emplace (Emplaced.frag_info f)

/-- What a handle refers to in the arena. -/
def HostBuffer.lookup {σ : Sig} (buffer : HostBuffer σ) : BufferView → Option (Emplaced σ)
  | BufferView.null => none
  | BufferView.slot i => buffer.contents.get? i

/-- The vertex data consumed by a draw, `impeller::VertexBuffer`. -/
structure VertexBuffer where
  vertex_buffer : BufferView
  index_count : Nat
  deriving DecidableEq

/-- The value initialised `VertexBuffer` of `return {};`: no storage, no
indices. -/
def VertexBuffer.empty : VertexBuffer :=
  { vertex_buffer := BufferView.null, index_count := 0 }

/-- The growable `VertexBufferBuilder<VS::PerVertexData>`. -/
structure VertexBufferBuilder where
  vertices : List PerVertexData
  deriving DecidableEq

/-- A default constructed builder holds no vertices. -/
def VertexBufferBuilder.new : VertexBufferBuilder :=
  { vertices := [] }

/-- The call `vtx_builder.AppendVertex(v)`. -/
def VertexBufferBuilder.AppendVertex (b : VertexBufferBuilder) (v : PerVertexData) :
    VertexBufferBuilder :=
  { vertices := b.vertices ++ [v] }

/-- Modelled from the spec: `VertexBufferBuilder::CreateVertexBuffer` is
declared elsewhere; the spec says it finalises an immutable vertex buffer
allocated from the given scratch allocator. -/
def VertexBufferBuilder.CreateVertexBuffer {σ : Sig} (b : VertexBufferBuilder)
    (buffer : HostBuffer σ) : VertexBuffer × HostBuffer σ :=
  let r := buffer.Emplace (Emplaced.vertex_data b.vertices)
  ({ vertex_buffer := r.1, index_count := b.vertices.length }, r.2)

/-- One draw instruction, `impeller::Command`, with the fields `Render`
fills in: `BindVertices` stores the vertex buffer, `VS::BindVertInfo` and
`FS::BindFragInfo` store the two uniform handles. -/
structure Command (σ : Sig) where
  label : String
  pipeline : σ.Pipeline
  stencil_reference : Nat
  vertices : VertexBuffer
  vert_info : BufferView
  frag_info : BufferView
  primitive_type : PrimitiveType

/-- The state of a `RenderPass` that `Render` touches: the render target size,
the transients buffer, and the record of every `AddCommand` call made on the
pass, each with the answer the pass gave. -/
structure RenderPass (σ : Sig) where
  render_target_size : ISize
  transients_buffer : HostBuffer σ
  submissions : List (Command σ × Bool)

/-- The renderer, `impeller::ContentContext`, as far as `Render` uses it. -/
structure ContentContext (σ : Sig) where
  GetSolidFillPipeline : σ.Options → σ.Pipeline

/-! ## Collaborator operations -/

/-- The operations of the collaborators that are defined outside this
translation unit.  The translated functions take them as an argument. -/
structure Externals (σ : Sig) where
  /-- The accessor `Path::GetFillType` -/
  GetFillType : σ.Path → FillType
  /-- The decomposition `Path::CreatePolyline` -/
  CreatePolyline : σ.Path → σ.Polyline
  /-- The query `Path::GetTransformedBoundingBox`, declared in
  `impeller/geometry/path.h` with result type `std::optional<Rect>`: a path
  without a bounding box answers none -/
  GetTransformedBoundingBox : σ.Path → σ.Matrix → Option Rect
  /-- The expression `PathBuilder{}.AddRect(rect).TakePath()` -/
  AddRectTakePath : Rect → σ.Path
  /-- The call `Tessellator{}.Tessellate(fill_type, polyline, callback)`: the
  result code and the points handed to the callback, in order -/
  Tessellate : FillType → σ.Polyline → TessellatorResult × List Point
  /-- The factory `Matrix::MakeOrthographic` -/
  MakeOrthographic : ISize → σ.Matrix
  /-- The product `Matrix::operator*` -/
  MatrixMultiply : σ.Matrix → σ.Matrix → σ.Matrix
  /-- The helper `OptionsFromPassAndEntity` -/
  OptionsFromPassAndEntity : RenderPass σ → Entity σ → σ.Options
  /-- The base class heuristic `Contents::ShouldRender` -/
  ContentsShouldRender : SolidColorContents σ → Entity σ → ISize → Bool
  /-- Whether `RenderPass::AddCommand` accepts a command on a pass -/
  AddCommandAccepts : RenderPass σ → Command σ → Bool

/-- Modelled from the spec: `RenderPass::AddCommand` is declared elsewhere; the
spec gives it as `AddCommand(command) -> bool accepted`.  The call is recorded
on the pass together with its answer. -/
def RenderPass.AddCommand {σ : Sig} (X : Externals σ) (pass : RenderPass σ)
    (cmd : Command σ) : Bool × RenderPass σ :=
  let accepted := X.AddCommandAccepts pass cmd
  (accepted, { pass with submissions := pass.submissions ++ [(cmd, accepted)] })

/-! ## The translation unit -/

namespace SolidColorContents

variable {σ : Sig}

/-- The setter `SolidColorContents::SetColor`. -/
def SetColor (self : SolidColorContents σ) (color : Color) : SolidColorContents σ :=
  { self with color := color }

/-- The getter `SolidColorContents::GetColor`. -/
def GetColor (self : SolidColorContents σ) : Color :=
  self.color

/-- The setter `SolidColorContents::SetCover`. -/
def SetCover (self : SolidColorContents σ) (cover : Bool) : SolidColorContents σ :=
  { self with cover := cover }

/-- The query `SolidColorContents::GetCoverage`. -/
def GetCoverage (X : Externals σ) (self : SolidColorContents σ) (entity : Entity σ) :
    Option Rect :=
  if self.color.IsTransparent then
    none
  else
    X.GetTransformedBoundingBox self.path entity.transformation

/-- The predicate `SolidColorContents::ShouldRender`. -/
def ShouldRender (X : Externals σ) (self : SolidColorContents σ) (entity : Entity σ)
    (target_size : ISize) : Bool :=
  self.cover || X.ContentsShouldRender self entity target_size

/-- The builder `SolidColorContents::CreateSolidFillVertices`: the callback
appends every emitted point to `vtx_builder`; a result other than success
returns the empty vertex buffer and leaves the host buffer alone. -/
def CreateSolidFillVertices (X : Externals σ) (path : σ.Path) (buffer : HostBuffer σ) :
    VertexBuffer × HostBuffer σ :=
  let tessellated := X.Tessellate (X.GetFillType path) (X.CreatePolyline path)
  let vtx_builder := tessellated.2.foldl
    (fun b point => b.AppendVertex { vertices := point }) VertexBufferBuilder.new
  if tessellated.1 ≠ TessellatorResult.kSuccess then
    (VertexBuffer.empty, buffer)
  else
    vtx_builder.CreateVertexBuffer buffer

/-- The geometry source of `Render`: the argument
`cover_ ? PathBuilder{}.AddRect(Size(pass.GetRenderTargetSize())).TakePath() : path_`
handed to `CreateSolidFillVertices`. -/
def RenderPath (X : Externals σ) (self : SolidColorContents σ) (pass : RenderPass σ) :
    σ.Path :=
  if self.cover then
    X.AddRectTakePath (Rect.ofSize (Size.ofISize pass.render_target_size))
  else
    self.path

/-- The method `SolidColorContents::Render`: the result and the pass after the
call. -/
def Render (X : Externals σ) (self : SolidColorContents σ) (renderer : ContentContext σ)
    (entity : Entity σ) (pass : RenderPass σ) : Bool × RenderPass σ :=
  let pipeline := renderer.GetSolidFillPipeline (X.OptionsFromPassAndEntity pass entity)
  let stencil_reference := entity.stencil_depth
  let vtx := CreateSolidFillVertices X (RenderPath X self pass) pass.transients_buffer
  let pass := { pass with transients_buffer := vtx.2 }
  let vert_info : VertInfo σ :=
    { mvp := X.MatrixMultiply (X.MakeOrthographic pass.render_target_size)
        entity.transformation }
  let vert := pass.transients_buffer.EmplaceVertInfo vert_info
  let pass := { pass with transients_buffer := vert.2 }
  let frag_info : FragInfo := { color := self.color.Premultiply }
  let frag := pass.transients_buffer.EmplaceFragInfo frag_info
  let pass := { pass with transients_buffer := frag.2 }
  let cmd : Command σ :=
    { label := "Solid Fill", pipeline := pipeline, stencil_reference := stencil_reference,
      vertices := vtx.1, vert_info := vert.1, frag_info := frag.1,
      primitive_type := PrimitiveType.kTriangle }
  let added := RenderPass.AddCommand X pass cmd
  if !added.1 then
    (false, added.2)
  else
    (true, added.2)

end SolidColorContents

/-! ## A concrete implementation of the collaborators

Used to evaluate the translated functions on concrete inputs: paths and
polylines are point lists, a transform scales and offsets each axis, options
and pipelines are numbers. -/

namespace Sample

/-- A transform that scales and then offsets each axis. -/
structure Affine where
  sx : Scalar
  sy : Scalar
  tx : Scalar
  ty : Scalar
  deriving DecidableEq

/-- The carrier types of the sample collaborators. -/
abbrev sig : Sig :=
  { Path := List Point, Matrix := Affine, Polyline := List Point,
    Pipeline := Nat, Options := Nat }

/-- Apply a transform to a point. -/
def apply (m : Affine) (p : Point) : Point :=
  { x := m.sx * p.x + m.tx, y := m.sy * p.y + m.ty }

/-- The product `a * b`: apply `b`, then `a`. -/
def multiply (a b : Affine) : Affine :=
  { sx := a.sx * b.sx, sy := a.sy * b.sy,
    tx := a.sx * b.tx + a.tx, ty := a.sy * b.ty + a.ty }

/-- The projection that maps the target rectangle onto clip space. -/
def orthographic (s : ISize) : Affine :=
  { sx := 2 / (s.width : Scalar), sy := -2 / (s.height : Scalar), tx := -1, ty := 1 }

/-- The bounding box of a point list; a list without points has none. -/
def bounds : List Point → Option Rect
  | [] => none
  | p :: ps =>
    let x0 := ps.foldl (fun m q => min m q.x) p.x
    let y0 := ps.foldl (fun m q => min m q.y) p.y
    let x1 := ps.foldl (fun m q => max m q.x) p.x
    let y1 := ps.foldl (fun m q => max m q.y) p.y
    some { origin := { x := x0, y := y0 }, size := { width := x1 - x0, height := y1 - y0 } }

/-- The corners of a rectangle, in drawing order. -/
def rectPath (r : Rect) : List Point :=
  [ r.origin,
    { x := r.origin.x + r.size.width, y := r.origin.y },
    { x := r.origin.x + r.size.width, y := r.origin.y + r.size.height },
    { x := r.origin.x, y := r.origin.y + r.size.height } ]

/-- A triangle fan around `p0` over the remaining points. -/
def fan (p0 : Point) : List Point → List Point
  | a :: b :: rest => p0 :: a :: b :: fan p0 (b :: rest)
  | _ => []

/-- A tessellator for convex outlines: a fan when there are at least three
points; otherwise it hands the points it has seen to the callback and reports
failure. -/
def tessellate (_fill : FillType) (polyline : List Point) :
    TessellatorResult × List Point :=
  match polyline with
  | p0 :: a :: b :: rest => (TessellatorResult.kSuccess, fan p0 (a :: b :: rest))
  | _ => (TessellatorResult.kFailure, polyline)

/-- The sample collaborators: the default visibility heuristic asks for a
bounding box, and a pass accepts a single command. -/
def externals : Externals sig :=
  { GetFillType := fun _ => FillType.kNonZero
    CreatePolyline := fun path => path
    GetTransformedBoundingBox := fun path m => bounds (path.map (apply m))
    AddRectTakePath := rectPath
    Tessellate := tessellate
    MakeOrthographic := orthographic
    MatrixMultiply := multiply
    OptionsFromPassAndEntity := fun _ entity => entity.stencil_depth
    ContentsShouldRender := fun self entity _ =>
      (bounds (self.path.map (apply entity.transformation))).isSome
    AddCommandAccepts := fun pass _ => pass.submissions.length == 0 }

/-- The sample renderer: the pipeline handle is the options key. -/
def renderer : ContentContext sig :=
  { GetSolidFillPipeline := fun options => options }

/-- The identity transform at stencil depth zero. -/
def entity : Entity sig :=
  { transformation := { sx := 1, sy := 1, tx := 0, ty := 0 }, stencil_depth := 0 }

/-- A fresh pass on a 2 by 2 target. -/
def pass : RenderPass sig :=
  { render_target_size := { width := 2, height := 2 },
    transients_buffer := { contents := [] }, submissions := [] }

/-- A pass on a 2 by 2 target that has already taken its one command. -/
def fullPass : RenderPass sig :=
  { render_target_size := { width := 2, height := 2 },
    transients_buffer := { contents := [] },
    submissions := [({ label := "Clip", pipeline := 0, stencil_reference := 0,
                       vertices := VertexBuffer.empty, vert_info := BufferView.null,
                       frag_info := BufferView.null,
                       primitive_type := PrimitiveType.kTriangle }, true)] }

/-- Opaque red. -/
def red : Color :=
  { red := 1, green := 0, blue := 0, alpha := 1 }

/-- A triangle with corners (0,0), (1,0), (0,1). -/
def triangle : List Point :=
  [{ x := 0, y := 0 }, { x := 1, y := 0 }, { x := 0, y := 1 }]

/-- A segment from (0,0) to (1,1): too few points to fill. -/
def lineSegment : List Point :=
  [{ x := 0, y := 0 }, { x := 1, y := 1 }]

/-- Opaque red contents without any path points, cover not set. -/
def redEmpty : SolidColorContents sig :=
  { color := red, path := [], cover := false }

/-- Opaque red contents over the triangle, cover not set. -/
def redTriangle : SolidColorContents sig :=
  { color := red, path := triangle, cover := false }

/-- Opaque red contents over the segment, cover not set. -/
def redSegment : SolidColorContents sig :=
  { color := red, path := lineSegment, cover := false }

end Sample

/-! ## Auxiliary facts -/

section Auxiliary

variable {σ : Sig}

/-- The handle returned by an allocation refers to the allocated value. -/
theorem HostBuffer.lookup_Emplace_self (buffer : HostBuffer σ) (e : Emplaced σ) :
    (buffer.Emplace e).2.lookup (buffer.Emplace e).1 = some e := by
  simp [HostBuffer.Emplace, HostBuffer.lookup, List.get?_eq_getElem?]

/-- A later allocation does not disturb what an earlier handle refers to. -/
theorem HostBuffer.lookup_Emplace_of_lookup (buffer : HostBuffer σ) (e d : Emplaced σ)
    (v : BufferView) (h : buffer.lookup v = some d) :
    (buffer.Emplace e).2.lookup v = some d := by
  cases v with
  | null => simp [HostBuffer.lookup] at h
  | slot i =>
    simp only [HostBuffer.lookup, List.get?_eq_getElem?] at h
    have hi : i < buffer.contents.length := by
      by_contra hge
      rw [List.getElem?_eq_none (by omega)] at h
      cases h
    simp only [HostBuffer.Emplace, HostBuffer.lookup, List.get?_eq_getElem?]
    rw [List.getElem?_append_left hi]
    exact h

/-- A failed tessellation makes the builder return the empty vertex buffer
and leave the host buffer untouched. -/
theorem SolidColorContents.CreateSolidFillVertices_of_failure (X : Externals σ)
    (path : σ.Path) (buffer : HostBuffer σ)
    (h : (X.Tessellate (X.GetFillType path) (X.CreatePolyline path)).1
      ≠ TessellatorResult.kSuccess) :
    SolidColorContents.CreateSolidFillVertices X path buffer = (VertexBuffer.empty, buffer) := by
  simp [SolidColorContents.CreateSolidFillVertices, h]

/-- The shape of `Render`: three allocations in the transients buffer, one
command, one `AddCommand` call whose answer is the result. -/
theorem SolidColorContents.Render_eq (X : Externals σ) (self : SolidColorContents σ)
    (renderer : ContentContext σ) (entity : Entity σ) (pass : RenderPass σ) :
    ∃ (cmd : Command σ) (vtx : VertexBuffer × HostBuffer σ)
      (vert frag : BufferView × HostBuffer σ),
      vtx = SolidColorContents.CreateSolidFillVertices X
        (SolidColorContents.RenderPath X self pass) pass.transients_buffer ∧
      vert = vtx.2.Emplace (Emplaced.vert_info
        { mvp := X.MatrixMultiply (X.MakeOrthographic pass.render_target_size)
            entity.transformation }) ∧
      frag = vert.2.Emplace (Emplaced.frag_info { color := self.color.Premultiply }) ∧
      cmd.vertices = vtx.1 ∧ cmd.vert_info = vert.1 ∧ cmd.frag_info = frag.1 ∧
      cmd.primitive_type = PrimitiveType.kTriangle ∧
      cmd.stencil_reference = entity.stencil_depth ∧
      SolidColorContents.Render X self renderer entity pass =
        (X.AddCommandAccepts { pass with transients_buffer := frag.2 } cmd,
          { render_target_size := pass.render_target_size,
            transients_buffer := frag.2,
            submissions := pass.submissions ++
              [(cmd, X.AddCommandAccepts { pass with transients_buffer := frag.2 } cmd)] }) := by
  let vtx := SolidColorContents.CreateSolidFillVertices X
    (SolidColorContents.RenderPath X self pass) pass.transients_buffer
  let vert := vtx.2.Emplace (Emplaced.vert_info
    { mvp := X.MatrixMultiply (X.MakeOrthographic pass.render_target_size)
        entity.transformation })
  let frag := vert.2.Emplace (Emplaced.frag_info { color := self.color.Premultiply })
  refine ⟨{ label := "Solid Fill",
            pipeline := renderer.GetSolidFillPipeline (X.OptionsFromPassAndEntity pass entity),
            stencil_reference := entity.stencil_depth,
            vertices := vtx.1, vert_info := vert.1, frag_info := frag.1,
            primitive_type := PrimitiveType.kTriangle },
    vtx, vert, frag, rfl, rfl, rfl, rfl, rfl, rfl, rfl, rfl, ?_⟩
  simp only [SolidColorContents.Render, RenderPass.AddCommand, HostBuffer.EmplaceVertInfo,
    HostBuffer.EmplaceFragInfo]
  split <;> simp_all [vtx, vert, frag]

/-- The translated `Render` evaluated on the sample collaborators: a fresh pass
accepts the command, a pass that already took one refuses it, and either way
one call is recorded. -/
theorem SolidColorContents.Render_sample :
    (SolidColorContents.Render Sample.externals Sample.redTriangle Sample.renderer
      Sample.entity Sample.pass).1 = true ∧
    (SolidColorContents.Render Sample.externals Sample.redTriangle Sample.renderer
      Sample.entity Sample.pass).2.submissions.length = 1 ∧
    (SolidColorContents.Render Sample.externals Sample.redTriangle Sample.renderer
      Sample.entity Sample.fullPass).1 = false ∧
    (SolidColorContents.Render Sample.externals Sample.redTriangle Sample.renderer
      Sample.entity Sample.fullPass).2.submissions.length = 2 := by
  decide

end Auxiliary

/-! ## The coverage query and the visibility predicate -/

section Claims

open SolidColorContents

variable {σ : Sig}

/-- C1, as stated, fails: opaque red contents whose path has no points have no
coverage, because the bounding box query of the path itself answers none,
although the colour is not transparent. -/
theorem GetCoverage_none_iff_transparent_counterexample :
    ¬ (GetCoverage Sample.externals Sample.redEmpty Sample.entity = none ↔
        Sample.redEmpty.color.IsTransparent = true) := by
  decide

/-- C1, amended: `GetCoverage` returns none exactly when the stored colour is
fully transparent or the transformed bounding box query of the stored path
returns none; a fully transparent colour gives none for every path and cover
flag, and the cover flag never changes the result. -/
theorem GetCoverage_none_iff (X : Externals σ) (self : SolidColorContents σ)
    (entity : Entity σ) :
    (GetCoverage X self entity = none ↔
      (self.color.IsTransparent = true ∨
        X.GetTransformedBoundingBox self.path entity.transformation = none)) ∧
    (∀ cover : Bool, GetCoverage X (SetCover self cover) entity = GetCoverage X self entity) := by
  constructor
  · unfold GetCoverage
    cases h : self.color.IsTransparent <;> simp
  · intro cover
    rfl

/-- C2: when the stored colour is not fully transparent, `GetCoverage` returns
exactly what the transformed bounding box query of the stored path returns for
the transform of the entity, whatever the cover flag is; in particular a path
with bounding box `r` under that transform has coverage `r`.  No assumption on
the path is needed, so the statement covers every non-empty path. -/
theorem GetCoverage_eq_bounding_box (X : Externals σ) (self : SolidColorContents σ)
    (entity : Entity σ) (hcolor : self.color.IsTransparent = false) :
    (∀ cover : Bool, GetCoverage X (SetCover self cover) entity =
      X.GetTransformedBoundingBox self.path entity.transformation) ∧
    (∀ r : Rect, X.GetTransformedBoundingBox self.path entity.transformation = some r →
      GetCoverage X self entity = some r) := by
  constructor
  · intro cover
    simp [GetCoverage, SetCover, hcolor]
  · intro r hr
    simp [GetCoverage, hcolor, hr]

/-- Witness for C2: opaque red over the triangle (0,0), (1,0), (0,1) under the
identity transform covers the unit square. -/
theorem GetCoverage_eq_bounding_box_witness :
    Sample.redTriangle.color.IsTransparent = false ∧
    GetCoverage Sample.externals Sample.redTriangle Sample.entity =
      some { origin := { x := 0, y := 0 }, size := { width := 1, height := 1 } } :=
  ⟨by decide,
   (GetCoverage_eq_bounding_box Sample.externals Sample.redTriangle Sample.entity
      (by decide)).2 _
     (by simp [Sample.externals, Sample.redTriangle, Sample.triangle, Sample.entity,
          Sample.bounds, Sample.apply])⟩

/-- C3: with the cover flag set `ShouldRender` is true for every entity and
target size, whatever the default heuristic `Contents::ShouldRender` answers;
with the cover flag clear it is exactly the answer of the default heuristic. -/
theorem ShouldRender_cover (X : Externals σ) (self : SolidColorContents σ)
    (entity : Entity σ) (target_size : ISize) :
    (self.cover = true → ShouldRender X self entity target_size = true) ∧
    (self.cover = false →
      ShouldRender X self entity target_size = X.ContentsShouldRender self entity target_size) := by
  constructor
  · intro h
    simp [ShouldRender, h]
  · intro h
    simp [ShouldRender, h]

/-- Witness for C3: on contents without path points the default heuristic
answers false; with cover set `ShouldRender` is true, with cover clear it is
false. -/
theorem ShouldRender_cover_witness :
    Sample.externals.ContentsShouldRender (SetCover Sample.redEmpty true) Sample.entity
      { width := 2, height := 2 } = false ∧
    ShouldRender Sample.externals (SetCover Sample.redEmpty true) Sample.entity
      { width := 2, height := 2 } = true ∧
    ShouldRender Sample.externals Sample.redEmpty Sample.entity { width := 2, height := 2 } =
      Sample.externals.ContentsShouldRender Sample.redEmpty Sample.entity
        { width := 2, height := 2 } :=
  ⟨by decide,
   (ShouldRender_cover Sample.externals (SetCover Sample.redEmpty true) Sample.entity
      { width := 2, height := 2 }).1 (by decide),
   (ShouldRender_cover Sample.externals Sample.redEmpty Sample.entity
      { width := 2, height := 2 }).2 (by decide)⟩

/-! ## Render -/

/-- C4: `Render` calls `AddCommand` on the pass exactly once (the record of
calls grows by one entry) and its result is the answer of that call: true if
and only if the pass accepted the command; a refusal gives false and no second
attempt. -/
theorem Render_AddCommand_once (X : Externals σ) (self : SolidColorContents σ)
    (renderer : ContentContext σ) (entity : Entity σ) (pass : RenderPass σ) :
    ∃ cmd : Command σ,
      (Render X self renderer entity pass).2.submissions =
        pass.submissions ++ [(cmd, (Render X self renderer entity pass).1)] ∧
      (Render X self renderer entity pass).2.submissions.length =
        pass.submissions.length + 1 ∧
      (Render X self renderer entity pass).1 =
        X.AddCommandAccepts
          { pass with
            transients_buffer := (Render X self renderer entity pass).2.transients_buffer }
          cmd := by
  obtain ⟨cmd, vtx, vert, frag, -, -, -, -, -, -, -, -, hR⟩ :=
    Render_eq X self renderer entity pass
  refine ⟨cmd, ?_, ?_, ?_⟩ <;> simp [hR]

/-- C5: on a path for which the tessellator reports a result other than
success, `CreateSolidFillVertices` returns the empty vertex buffer and
allocates nothing, whatever the tessellator emitted before failing; a `Render`
whose geometry source is that path still submits one command, bound to the
empty vertex buffer, and returns the answer of `AddCommand`. -/
theorem Render_tessellation_failure (X : Externals σ) (path : σ.Path)
    (hfail : (X.Tessellate (X.GetFillType path) (X.CreatePolyline path)).1
      ≠ TessellatorResult.kSuccess) :
    (∀ buffer : HostBuffer σ,
      CreateSolidFillVertices X path buffer = (VertexBuffer.empty, buffer)) ∧
    (∀ (self : SolidColorContents σ) (renderer : ContentContext σ) (entity : Entity σ)
        (pass : RenderPass σ), RenderPath X self pass = path →
      ∃ cmd : Command σ,
        cmd.vertices = VertexBuffer.empty ∧
        (Render X self renderer entity pass).2.submissions =
          pass.submissions ++ [(cmd, (Render X self renderer entity pass).1)] ∧
        (Render X self renderer entity pass).1 =
          X.AddCommandAccepts
            { pass with
              transients_buffer := (Render X self renderer entity pass).2.transients_buffer }
            cmd) := by
  constructor
  · intro buffer
    exact CreateSolidFillVertices_of_failure X path buffer hfail
  · intro self renderer entity pass hpath
    obtain ⟨cmd, vtx, vert, frag, hvtx, -, -, hv, -, -, -, -, hR⟩ :=
      Render_eq X self renderer entity pass
    rw [hpath, CreateSolidFillVertices_of_failure X path _ hfail] at hvtx
    refine ⟨cmd, ?_, ?_, ?_⟩
    · rw [hv, hvtx]
    · simp [hR]
    · simp [hR]

/-- Witness for C5: the sample tessellator hands both points of a segment to
the callback and then fails; the builder still returns the empty vertex buffer
and `Render` submits once. -/
theorem Render_tessellation_failure_witness :
    (Sample.externals.Tessellate (Sample.externals.GetFillType Sample.lineSegment)
      (Sample.externals.CreatePolyline Sample.lineSegment)) =
        (TessellatorResult.kFailure, Sample.lineSegment) ∧
    CreateSolidFillVertices Sample.externals Sample.lineSegment Sample.pass.transients_buffer =
      (VertexBuffer.empty, Sample.pass.transients_buffer) ∧
    ∃ cmd : Command Sample.sig,
      cmd.vertices = VertexBuffer.empty ∧
      (Render Sample.externals Sample.redSegment Sample.renderer Sample.entity
        Sample.pass).2.submissions =
        Sample.pass.submissions ++
          [(cmd, (Render Sample.externals Sample.redSegment Sample.renderer Sample.entity
            Sample.pass).1)] ∧
      (Render Sample.externals Sample.redSegment Sample.renderer Sample.entity Sample.pass).1 =
        Sample.externals.AddCommandAccepts
          { Sample.pass with
            transients_buffer :=
              (Render Sample.externals Sample.redSegment Sample.renderer Sample.entity
                Sample.pass).2.transients_buffer }
          cmd :=
  ⟨by decide,
   (Render_tessellation_failure Sample.externals Sample.lineSegment (by decide)).1 _,
   (Render_tessellation_failure Sample.externals Sample.lineSegment (by decide)).2
     Sample.redSegment Sample.renderer Sample.entity Sample.pass rfl⟩

/-- C7: the command `Render` submits has its fragment uniform bound to an
allocation of the transients buffer that holds `Premultiply` of the stored
colour, which is (r*a, g*a, b*a, a) and depends on nothing but the colour;
(1, 0, 0, 1/2) is uploaded as (1/2, 0, 0, 1/2). -/
theorem Render_frag_info_premultiplied (X : Externals σ) (self : SolidColorContents σ)
    (renderer : ContentContext σ) (entity : Entity σ) (pass : RenderPass σ) :
    (∃ cmd : Command σ,
      (Render X self renderer entity pass).2.submissions =
        pass.submissions ++ [(cmd, (Render X self renderer entity pass).1)] ∧
      (Render X self renderer entity pass).2.transients_buffer.lookup cmd.frag_info =
        some (Emplaced.frag_info { color := self.color.Premultiply })) ∧
    self.color.Premultiply =
      { red := self.color.red * self.color.alpha, green := self.color.green * self.color.alpha,
        blue := self.color.blue * self.color.alpha, alpha := self.color.alpha } ∧
    Color.Premultiply { red := 1, green := 0, blue := 0, alpha := 1 / 2 } =
      { red := 1 / 2, green := 0, blue := 0, alpha := 1 / 2 } := by
  refine ⟨?_, rfl, by norm_num [Color.Premultiply]⟩
  obtain ⟨cmd, vtx, vert, frag, -, -, hfrag, -, -, hf, -, -, hR⟩ :=
    Render_eq X self renderer entity pass
  refine ⟨cmd, by simp [hR], ?_⟩
  rw [hR, hf, hfrag]
  exact HostBuffer.lookup_Emplace_self _ _

/-- C8: the command `Render` submits has its vertex uniform bound to an
allocation of the transients buffer whose `mvp` is
`Matrix::MakeOrthographic(render target size) * entity transform`, the
projection as left factor and the entity transform as right factor, for every
transform and target size. -/
theorem Render_vert_info_mvp (X : Externals σ) (self : SolidColorContents σ)
    (renderer : ContentContext σ) (entity : Entity σ) (pass : RenderPass σ) :
    ∃ cmd : Command σ,
      (Render X self renderer entity pass).2.submissions =
        pass.submissions ++ [(cmd, (Render X self renderer entity pass).1)] ∧
      (Render X self renderer entity pass).2.transients_buffer.lookup cmd.vert_info =
        some (Emplaced.vert_info
          { mvp := X.MatrixMultiply (X.MakeOrthographic pass.render_target_size)
              entity.transformation }) := by
  obtain ⟨cmd, vtx, vert, frag, -, hvert, hfrag, -, hv, -, -, -, hR⟩ :=
    Render_eq X self renderer entity pass
  refine ⟨cmd, by simp [hR], ?_⟩
  rw [hR, hv, hfrag]
  apply HostBuffer.lookup_Emplace_of_lookup
  rw [hvert]
  exact HostBuffer.lookup_Emplace_self _ _

/-- C10: `SetCover(b)` changes the cover flag to `b` and leaves the stored
path and colour as they were; hence on contents whose cover flag is clear,
setting it and clearing it again gives back the same contents, with the same
`GetCoverage` and `Render` results. -/
theorem SetCover_frame (X : Externals σ) (self : SolidColorContents σ)
    (renderer : ContentContext σ) (entity : Entity σ) (pass : RenderPass σ) :
    (∀ b : Bool, (SetCover self b).path = self.path ∧ (SetCover self b).color = self.color ∧
      (SetCover self b).cover = b) ∧
    (self.cover = false →
      SetCover (SetCover self true) false = self ∧
      GetCoverage X (SetCover (SetCover self true) false) entity = GetCoverage X self entity ∧
      Render X (SetCover (SetCover self true) false) renderer entity pass =
        Render X self renderer entity pass) := by
  refine ⟨fun b => ⟨rfl, rfl, rfl⟩, fun h => ?_⟩
  have hself : SetCover (SetCover self true) false = self := by
    cases self
    simp_all [SetCover]
  refine ⟨hself, ?_, ?_⟩ <;> rw [hself]

/-- Witness for C10: toggling cover on the opaque red triangle contents gives
the same contents and the same `Render` outcome. -/
theorem SetCover_frame_witness :
    Sample.redTriangle.cover = false ∧
    SetCover (SetCover Sample.redTriangle true) false = Sample.redTriangle ∧
    GetCoverage Sample.externals (SetCover (SetCover Sample.redTriangle true) false)
      Sample.entity = GetCoverage Sample.externals Sample.redTriangle Sample.entity ∧
    Render Sample.externals (SetCover (SetCover Sample.redTriangle true) false)
      Sample.renderer Sample.entity Sample.pass =
      Render Sample.externals Sample.redTriangle Sample.renderer Sample.entity Sample.pass :=
  ⟨rfl,
   (SetCover_frame Sample.externals Sample.redTriangle Sample.renderer Sample.entity
      Sample.pass).2 rfl⟩

end Claims

end impeller
